import Mathlib

/-!
Verification development for the Photo-Fusion-AI repository.

The repository is a small TypeScript/React application with three source
files:

* `services/geminiService.ts` — the Edit Request Client
  (`generateEditedImage`): builds a three-part request payload
  (base image inline data, logo image inline data, instruction text),
  invokes the remote generative endpoint, scans the response's content
  parts for the first one carrying inline image data and returns the
  corresponding data URI; all failures are converted by the function's
  own catch handler into a rejection carrying a plain string.
* `components/ImageUploader.tsx` — Image Intake: a file-dialog path
  (`handleFileChange`, with an `accept` filter of PNG/JPEG/WEBP) and a
  drag-and-drop path (`handleDrop`, with an `image/` type-prefix check),
  both enforcing a 4 MiB size limit before reading the file.
* the App component — the Session Controller (`handleGenerate`): guards
  on both image slots and the instruction, sets the loading flag, encodes
  the two files, invokes the client and records the result or the error
  message.

Everything below is a shallow embedding of that code: JavaScript values
that matter to the claims (thrown values, response parts, files) become
Lean inductive types and structures, the asynchronous control flow becomes
explicit state passing, and the remote endpoint becomes a parameter
mapping the request payload to an outcome.
-/

/-- A JavaScript value as far as the error paths observe it: either an
`Error` object (observed through `instanceof Error` and `.message`) or a
plain string (observed through `String(err)`). These are the only two
shapes of value the repository ever throws or rejects with. -/
inductive JsValue where
  | str (s : String)
  | errObj (message : String)
  deriving DecidableEq, Repr

/-- `String(v)` for the values of `JsValue`: a string converts to itself;
an `Error` object stringifies as `"Error: " ++ message` (the source only
applies `String` to values that failed the `instanceof Error` test, so
that branch is never reached on the code's actual rejections). -/
def jsToString : JsValue → String
  | JsValue.str s => s
  | JsValue.errObj m => "Error: " ++ m

/-- `v instanceof Error` for the values of `JsValue`. -/
def isErrorInstance : JsValue → Bool
  | JsValue.str _ => false
  | JsValue.errObj _ => true

/-- `v.message` for the values of `JsValue`: the message of an `Error`
object. Both reads of `.message` in the source are guarded by
`instanceof Error`, so the string branch is never reached; it returns the
empty string. -/
def errorMessage : JsValue → String
  | JsValue.errObj m => m
  | JsValue.str _ => ""

/-- An inline-data blob of a response part: `part.inlineData`, carrying
base64 content and a declared media type. -/
structure InlineData where
  data : String
  mimeType : String
  deriving DecidableEq, Repr

/-- A content part of the remote response. The scanning loop in
`generateEditedImage` only tests `part.inlineData`, so the embedding keeps
the inline-data field (and a text field for completeness). -/
structure RespPart where
  inlineData : Option InlineData
  text : Option String
  deriving DecidableEq, Repr

/-- `candidate.content` of the remote response. -/
structure RespContent where
  parts : Option (List RespPart)
  deriving DecidableEq, Repr

/-- One candidate of the remote response. -/
structure RespCandidate where
  content : Option RespContent
  deriving DecidableEq, Repr

/-- The remote response object, as far as `generateEditedImage` reads it:
`response.candidates?.[0]?.content?.parts`. -/
structure GenResponse where
  candidates : Option (List RespCandidate)
  deriving DecidableEq, Repr

/-- `response.candidates?.[0]?.content?.parts || []` — the optional-chain
read of the first candidate's content parts, defaulting to the empty
list. -/
def responseParts (r : GenResponse) : List RespPart :=
  match r.candidates with
  | none => []
  | some cs =>
    match cs.head? with
    | none => []
    | some c =>
      match c.content with
      | none => []
      | some content =>
        match content.parts with
        | none => []
        | some ps => ps

/-- An encoded image as produced by `fileToBase64`: `{ data, mimeType }`. -/
structure EncodedImage where
  data : String
  mimeType : String
  deriving DecidableEq, Repr

/-- The argument record of `generateEditedImage`. -/
structure GenerateImageParams where
  baseImage : EncodedImage
  logoImage : EncodedImage
  prompt : String
  deriving DecidableEq, Repr

/-- One part of the request payload sent to the remote endpoint: either an
inline-data part (`{ inlineData: { data, mimeType } }`) or a text part
(`{ text }`). -/
inductive RequestPart where
  | inlineData (data : String) (mimeType : String)
  | text (t : String)
  deriving DecidableEq, Repr

/-- The `contents.parts` array built by `generateEditedImage`: base image
inline data, then logo image inline data, then the prompt text. -/
def requestParts (p : GenerateImageParams) : List RequestPart :=
  [ RequestPart.inlineData p.baseImage.data p.baseImage.mimeType,
    RequestPart.inlineData p.logoImage.data p.logoImage.mimeType,
    RequestPart.text p.prompt ]

/-- Outcome of the awaited remote call `ai.models.generateContent`: either
it resolves with a response object or it throws a value. -/
inductive RemoteOutcome where
  | success (r : GenResponse)
  | failure (e : JsValue)
  deriving Repr

/-- The scanning loop of `generateEditedImage`:
`for (const part of parts) if (part.inlineData) return ...` — the first
part whose `inlineData` field is present. -/
def findInlineData : List RespPart → Option InlineData
  | [] => none
  | p :: rest =>
    match p.inlineData with
    | some d => some d
    | none => findInlineData rest

/-- The message of the error thrown when no response part carries inline
image data. -/
def noImageMessage : String := "No image was generated in the response."

/-- The fixed rejection text used when the caught value is not an `Error`
instance. -/
def unknownErrorMessage : String :=
  "An unknown error occurred while generating the image."

/-- The catch handler of `generateEditedImage`: an `Error` instance is
converted to a rejection carrying its message string, any other thrown
value to a rejection carrying the fixed unknown-error text. In both cases
the rejection value is a plain string. -/
def catchToRejection (e : JsValue) : JsValue :=
  if isErrorInstance e then JsValue.str (errorMessage e)
  else JsValue.str unknownErrorMessage

/-- The body of the `try` block after the remote call resolved or threw:
on success scan the parts for the first inline-data part and return its
data URI, otherwise throw the no-image error; any thrown value — from the
remote call or from the no-image throw itself — lands in the catch handler
and becomes a string rejection. -/
def processOutcome (o : RemoteOutcome) : Except JsValue String :=
  match o with
  | RemoteOutcome.failure e => Except.error (catchToRejection e)
  | RemoteOutcome.success r =>
    match findInlineData (responseParts r) with
    | some d =>
        Except.ok ("data:" ++ d.mimeType ++ ";base64," ++ d.data)
    | none =>
        Except.error (catchToRejection (JsValue.errObj noImageMessage))

/-- `generateEditedImage`: build the three-part request payload from the
parameters, hand it to the remote endpoint (modelled as a function from
the payload to an outcome), and process the outcome as the source's
try/catch does. `Except.ok` models a resolved promise, `Except.error` a
rejected one. -/
def generateEditedImage (remote : List RequestPart → RemoteOutcome)
    (p : GenerateImageParams) : Except JsValue String :=
  processOutcome (remote (requestParts p))

/-- A local file as far as the repository observes it: a declared byte
size (`file.size`), a declared media type (`file.type`), and — standing
for the bytes that `FileReader.readAsDataURL` would base64-encode — the
base64 text of its content. -/
structure FileInfo where
  size : Nat
  type : String
  contentBase64 : String
  deriving DecidableEq, Repr

/-- The data URL that `FileReader.readAsDataURL` produces for a file. -/
def readAsDataURL (f : FileInfo) : String :=
  "data:" ++ f.type ++ ";base64," ++ f.contentBase64

/-- `fileToBase64` in the App: read the file as a data URL, split off the
base64 payload after the comma, and pair it with the file's declared
type. The read is modelled as always succeeding. -/
def fileToBase64 (f : FileInfo) : EncodedImage :=
  { data := f.contentBase64, mimeType := f.type }

/-- The `ImageFile` record held in an image slot: the original file handle
plus the preview data URL produced at intake. -/
structure ImageFile where
  file : FileInfo
  preview : String
  deriving DecidableEq, Repr

/-- The App component's state: the two image slots, the instruction text,
the generated result, the loading flag and the error message — each a
separate `useState` field in the source. -/
structure AppState where
  baseImage : Option ImageFile
  logoImage : Option ImageFile
  prompt : String
  generatedImage : Option String
  isLoading : Bool
  error : Option String
  deriving DecidableEq, Repr

/-- The WorkflowState enum of the specification, derived from the App's
independent state fields the way the render surface prioritises them:
the loading spinner while `isLoading`, else the error panel when an error
message is present, else the result when one is present, else the idle
placeholder. -/
inductive WorkflowState where
  | Idle
  | Loading
  | Succeeded (uri : String)
  | Failed (message : String)
  deriving DecidableEq, Repr

/-- Derive the workflow state from the App state fields. -/
def workflowState (s : AppState) : WorkflowState :=
  if s.isLoading then WorkflowState.Loading
  else
    match s.error with
    | some m => WorkflowState.Failed m
    | none =>
      match s.generatedImage with
      | some r => WorkflowState.Succeeded r
      | none => WorkflowState.Idle

/-- The message set by `handleGenerate` when an input is missing. -/
def missingInputMessage : String :=
  "Please provide a base image, a logo image, and a prompt."

/-- `setBaseImage`, as passed to the first uploader's `onImageUpload`:
replaces the base image slot and nothing else. -/
def setBaseImage (v : Option ImageFile) (s : AppState) : AppState :=
  { s with baseImage := v }

/-- `setLogoImage`, as passed to the second uploader's `onImageUpload`:
replaces the logo image slot and nothing else. -/
def setLogoImage (v : Option ImageFile) (s : AppState) : AppState :=
  { s with logoImage := v }

/-- The synchronous prefix of `handleGenerate`, up to the first `await`:
if either image slot is empty or the prompt is the empty string
(`!baseImage || !logoImage || !prompt`), set the missing-input error
message and return without starting a request; otherwise set the loading
flag, clear the error and the previous result, and proceed. The boolean
records whether the request flow was started. -/
def handleGenerateStart (s : AppState) : AppState × Bool :=
  if s.baseImage.isNone || s.logoImage.isNone || s.prompt == "" then
    ({ s with error := some missingInputMessage }, false)
  else
    ({ s with isLoading := true, error := none, generatedImage := none }, true)

/-- The continuation of `handleGenerate` once `generateEditedImage`
settles: on resolution store the result, on rejection store
`err instanceof Error ? err.message : String(err)`; the `finally` block
clears the loading flag in both cases. -/
def handleGenerateResolve (s : AppState) (result : Except JsValue String) :
    AppState :=
  match result with
  | Except.ok r =>
      { s with generatedImage := some r, isLoading := false }
  | Except.error e =>
      { s with
        error := some (if isErrorInstance e then errorMessage e else jsToString e),
        isLoading := false }

/-- The request parameters `handleGenerate` builds when both slots are
full: both files encoded via `fileToBase64`, plus the prompt. The
fallback branch is unreachable from `handleGenerate`, whose guard already
ensured both slots are full. -/
def buildRequest (s : AppState) : GenerateImageParams :=
  match s.baseImage, s.logoImage with
  | some b, some l =>
    { baseImage := fileToBase64 b.file,
      logoImage := fileToBase64 l.file,
      prompt := s.prompt }
  | _, _ =>
    { baseImage := { data := "", mimeType := "" },
      logoImage := { data := "", mimeType := "" },
      prompt := s.prompt }

/-- The whole of `handleGenerate`, run to completion against a remote
endpoint: start (guard + loading state), and if a request was started,
encode, call `generateEditedImage` and resolve. The boolean records
whether the Edit Request Client was invoked. -/
def handleGenerate (remote : List RequestPart → RemoteOutcome)
    (s : AppState) : AppState × Bool :=
  let r := handleGenerateStart s
  if r.2 then
    (handleGenerateResolve r.1 (generateEditedImage remote (buildRequest s)),
     true)
  else r

/-- The Generate button's `disabled` predicate:
`isLoading || !baseImage || !logoImage`. -/
def generateButtonDisabled (s : AppState) : Bool :=
  s.isLoading || s.baseImage.isNone || s.logoImage.isNone

/-- A submission attempt through the UI: clicking the Generate button. A
disabled button fires no click handler, so the attempt does nothing at
all; otherwise it runs `handleGenerate`. The boolean again records
whether the Edit Request Client was invoked. -/
def submitAttempt (remote : List RequestPart → RemoteOutcome)
    (s : AppState) : AppState × Bool :=
  if generateButtonDisabled s then (s, false) else handleGenerate remote s

/-- Outcome of one intake attempt in `ImageUploader`: the handler either
starts reading the file (and will hand `{ file, preview }` to
`onImageUpload` when the read ends), shows the oversize alert and
returns, or falls through without doing anything. -/
inductive IntakeOutcome where
  | accepted
  | oversizeAlert
  | ignored
  deriving DecidableEq, Repr

/-- The size limit checked by both intake paths: 4 × 1024 × 1024 bytes. -/
def sizeLimit : Nat := 4 * 1024 * 1024

/-- `handleFileChange`, the file-dialog path: take the first selected
file if any; reject with the oversize alert when its declared size
exceeds the limit; otherwise read it. No media-type check happens in the
handler itself (the dialog filter is the `accept` attribute below). -/
def handleFileChange (file : Option FileInfo) : IntakeOutcome :=
  match file with
  | none => IntakeOutcome.ignored
  | some f =>
    if f.size > sizeLimit then IntakeOutcome.oversizeAlert
    else IntakeOutcome.accepted

/-- `t.startsWith(prefixStr)` of JavaScript strings: the characters of
the prefix are exactly the first characters of `t`. (Lean's own
`String.startsWith` is extensionally the same test but is defined by
well-founded recursion on byte positions, which blocks kernel
evaluation; the character-list form is used so concrete inputs
compute.) -/
def strStartsWith (s pre : String) : Bool :=
  pre.data.isPrefixOf s.data

/-- `handleDrop`, the drag-and-drop path: take the first dropped file if
any; proceed only when its declared type starts with "image/"; within
that, reject with the oversize alert when its declared size exceeds the
limit; otherwise read it. A dropped file whose type does not start with
"image/" is ignored silently, whatever its size. -/
def handleDrop (file : Option FileInfo) : IntakeOutcome :=
  match file with
  | none => IntakeOutcome.ignored
  | some f =>
    if strStartsWith f.type "image/" then
      if f.size > sizeLimit then IntakeOutcome.oversizeAlert
      else IntakeOutcome.accepted
    else IntakeOutcome.ignored

/-- The `accept` attribute of the hidden file input:
`"image/png, image/jpeg, image/webp"` — the dialog's media-type
allow-list. -/
def acceptAttributeTypes : List String :=
  ["image/png", "image/jpeg", "image/webp"]

/-- Whether the file dialog's filter admits a media type: membership in
the `accept` allow-list. -/
def pickerFilterAllows (t : String) : Bool :=
  acceptAttributeTypes.contains t

/-- Whether an intake outcome reads the file's content
(`reader.readAsDataURL` is only reached on acceptance). -/
def intakeReadsFile : IntakeOutcome → Bool
  | IntakeOutcome.accepted => true
  | _ => false

/-- The effect of an intake outcome on the image slot: only acceptance
calls `onImageUpload` with the file and its preview; the other outcomes
leave the current selection untouched and produce no preview. -/
def applyIntake (o : IntakeOutcome) (f : FileInfo)
    (slot : Option ImageFile) : Option ImageFile :=
  match o with
  | IntakeOutcome.accepted => some { file := f, preview := readAsDataURL f }
  | _ => slot

/-- A simulated remote response whose single candidate carries the given
content parts — the shape used to exercise the response-scanning path. -/
def mkResponse (parts : List RespPart) : GenResponse :=
  { candidates := some [{ content := some { parts := some parts } }] }

/-- The scanning loop skips every part without inline data and stops at
the first part that has some, whatever follows it. -/
theorem findInlineData_first_hit (pre : List RespPart) (p : RespPart)
    (post : List RespPart) (d : InlineData)
    (hpre : ∀ q ∈ pre, q.inlineData = none)
    (hp : p.inlineData = some d) :
    findInlineData (pre ++ p :: post) = some d := by
  induction pre with
  | nil => simp [findInlineData, hp]
  | cons q rest ih =>
    have hq : q.inlineData = none := hpre q (List.mem_cons_self q rest)
    simp only [List.cons_append, findInlineData, hq]
    exact ih fun x hx => hpre x (List.mem_cons_of_mem q hx)

/-- The scanning loop finds nothing when no part has inline data. -/
theorem findInlineData_all_none (parts : List RespPart)
    (h : ∀ q ∈ parts, q.inlineData = none) :
    findInlineData parts = none := by
  induction parts with
  | nil => rfl
  | cons q rest ih =>
    have hq : q.inlineData = none := h q (List.mem_cons_self q rest)
    simp only [findInlineData, hq]
    exact ih fun x hx => h x (List.mem_cons_of_mem q hx)

/-- C1: for every remote response whose content parts contain at least one
part carrying inline image data, `generateEditedImage` resolves to the
data URI `data:<mediaType>;base64,<content>` built from the first such
part's exact content and declared media type, ignoring all later parts. -/
theorem generateEditedImage_first_inline (p : GenerateImageParams)
    (pre : List RespPart) (part : RespPart) (post : List RespPart)
    (d : InlineData)
    (hpre : ∀ q ∈ pre, q.inlineData = none)
    (hpart : part.inlineData = some d) :
    generateEditedImage
      (fun _ => RemoteOutcome.success (mkResponse (pre ++ part :: post))) p
    = Except.ok ("data:" ++ d.mimeType ++ ";base64," ++ d.data) := by
  simp [generateEditedImage, processOutcome, responseParts, mkResponse,
    findInlineData_first_hit pre part post d hpre hpart]

/-- C1 witness: a response with a text-only part, then a PNG inline part,
then a JPEG inline part resolves to the PNG data URI. -/
theorem generateEditedImage_first_inline_witness :
    generateEditedImage
      (fun _ => RemoteOutcome.success (mkResponse
        [⟨none, some "note"⟩,
         ⟨some ⟨"AAA", "image/png"⟩, none⟩,
         ⟨some ⟨"BBB", "image/jpeg"⟩, none⟩]))
      ⟨⟨"b", "image/png"⟩, ⟨"l", "image/jpeg"⟩, "add the logo"⟩
    = Except.ok "data:image/png;base64,AAA" :=
  generateEditedImage_first_inline
    ⟨⟨"b", "image/png"⟩, ⟨"l", "image/jpeg"⟩, "add the logo"⟩
    [⟨none, some "note"⟩] ⟨some ⟨"AAA", "image/png"⟩, none⟩
    [⟨some ⟨"BBB", "image/jpeg"⟩, none⟩] ⟨"AAA", "image/png"⟩
    (by decide) rfl

/-- C2: for every pair of encoded images and every instruction, the
request payload consists of exactly three parts in order — base inline
data, logo inline data, instruction text — and `generateEditedImage`
hands the remote endpoint exactly this payload. -/
theorem requestPayload_three_parts (p : GenerateImageParams)
    (remote : List RequestPart → RemoteOutcome) :
    (requestParts p).length = 3 ∧
    (requestParts p).get? 0
      = some (RequestPart.inlineData p.baseImage.data p.baseImage.mimeType) ∧
    (requestParts p).get? 1
      = some (RequestPart.inlineData p.logoImage.data p.logoImage.mimeType) ∧
    (requestParts p).get? 2 = some (RequestPart.text p.prompt) ∧
    generateEditedImage remote p = processOutcome (remote (requestParts p)) :=
  ⟨rfl, rfl, rfl, rfl, rfl⟩

/-- C3: when no content part carries inline image data,
`generateEditedImage` rejects with the no-image message as a plain
string, and resolving that rejection puts the controller in the Failed
state carrying that message. -/
theorem noImage_rejection_and_failed_state (p : GenerateImageParams)
    (parts : List RespPart) (s : AppState)
    (h : ∀ q ∈ parts, q.inlineData = none) :
    generateEditedImage (fun _ => RemoteOutcome.success (mkResponse parts)) p
      = Except.error (JsValue.str noImageMessage) ∧
    workflowState
      (handleGenerateResolve s (Except.error (JsValue.str noImageMessage)))
      = WorkflowState.Failed noImageMessage := by
  constructor
  · simp [generateEditedImage, processOutcome, responseParts, mkResponse,
      findInlineData_all_none parts h, catchToRejection, isErrorInstance,
      errorMessage]
  · simp [handleGenerateResolve, workflowState, isErrorInstance, jsToString]

/-- C3 witness: a response holding one text-only part rejects with the
no-image message, and a loading controller state ends up Failed with that
message. -/
theorem noImage_rejection_and_failed_state_witness :
    generateEditedImage
      (fun _ => RemoteOutcome.success (mkResponse [⟨none, some "sorry"⟩]))
      ⟨⟨"b", "image/png"⟩, ⟨"l", "image/png"⟩, "fuse"⟩
      = Except.error (JsValue.str noImageMessage) ∧
    workflowState
      (handleGenerateResolve ⟨none, none, "fuse", none, true, none⟩
        (Except.error (JsValue.str noImageMessage)))
      = WorkflowState.Failed noImageMessage :=
  noImage_rejection_and_failed_state
    ⟨⟨"b", "image/png"⟩, ⟨"l", "image/png"⟩, "fuse"⟩
    [⟨none, some "sorry"⟩] ⟨none, none, "fuse", none, true, none⟩
    (by decide)

/-- C4 counterexample: from the Idle state with no images and an empty
prompt, a submission is not a no-op — the state changes, to Failed with
the missing-input message — although the client is indeed not invoked. -/
theorem missing_input_not_noop_cex :
    workflowState ⟨none, none, "", none, false, none⟩ = WorkflowState.Idle ∧
    (handleGenerate (fun _ => RemoteOutcome.failure (JsValue.str ""))
        ⟨none, none, "", none, false, none⟩).1
      ≠ (⟨none, none, "", none, false, none⟩ : AppState) ∧
    workflowState
      (handleGenerate (fun _ => RemoteOutcome.failure (JsValue.str ""))
        ⟨none, none, "", none, false, none⟩).1
      = WorkflowState.Failed missingInputMessage ∧
    (handleGenerate (fun _ => RemoteOutcome.failure (JsValue.str ""))
        ⟨none, none, "", none, false, none⟩).2
      = false := by
  refine ⟨rfl, ?_, rfl, rfl⟩
  decide

/-- C4 (amended): when either image slot is empty or the instruction is
empty, `handleGenerate` does not invoke the Edit Request Client and
leaves the image slots, the prompt, the loading flag and the previous
result unchanged — but it does set the error message to the missing-input
message, so the workflow state is not in general preserved. -/
theorem missing_input_sets_error
    (remote : List RequestPart → RemoteOutcome) (s : AppState)
    (h : s.baseImage.isNone || s.logoImage.isNone || s.prompt == "") :
    handleGenerate remote s = ({ s with error := some missingInputMessage }, false) := by
  simp [handleGenerate, handleGenerateStart, h]

/-- C4 witness: a state holding only a logo image: the client is not
invoked and only the error field changes. -/
theorem missing_input_sets_error_witness :
    handleGenerate (fun _ => RemoteOutcome.failure (JsValue.str ""))
      ⟨none, some ⟨⟨7, "image/png", "LLL"⟩, "data:image/png;base64,LLL"⟩,
       "add it", none, false, none⟩
    = (⟨none, some ⟨⟨7, "image/png", "LLL"⟩, "data:image/png;base64,LLL"⟩,
        "add it", none, false, some missingInputMessage⟩, false) :=
  missing_input_sets_error (fun _ => RemoteOutcome.failure (JsValue.str ""))
    ⟨none, some ⟨⟨7, "image/png", "LLL"⟩, "data:image/png;base64,LLL"⟩,
     "add it", none, false, none⟩ (by decide)

/-- C5: from any non-Loading state, the synchronous part of a submission
enters Loading exactly when both images are selected and the instruction
is non-empty, and otherwise enters Failed with the missing-input message
without starting the client call. -/
theorem submission_guard_transitions (s : AppState)
    (hld : s.isLoading = false) :
    (s.baseImage ≠ none ∧ s.logoImage ≠ none ∧ s.prompt ≠ "" →
      workflowState (handleGenerateStart s).1 = WorkflowState.Loading ∧
      (handleGenerateStart s).2 = true) ∧
    (s.baseImage = none ∨ s.logoImage = none ∨ s.prompt = "" →
      workflowState (handleGenerateStart s).1
        = WorkflowState.Failed missingInputMessage ∧
      (handleGenerateStart s).2 = false) := by
  constructor
  · rintro ⟨hb, hl, hp⟩
    have hb' : s.baseImage.isNone = false := by
      cases hbi : s.baseImage with
      | none => exact absurd hbi hb
      | some _ => rfl
    have hl' : s.logoImage.isNone = false := by
      cases hli : s.logoImage with
      | none => exact absurd hli hl
      | some _ => rfl
    have hp' : (s.prompt == "") = false := by
      simp [hp]
    simp [handleGenerateStart, hb', hl', hp', workflowState]
  · intro h
    have hguard : (s.baseImage.isNone || s.logoImage.isNone || s.prompt == "")
        = true := by
      rcases h with h | h | h <;> simp [h]
    simp [handleGenerateStart, hguard, workflowState, hld]

/-- C5 witness: with both images and a non-empty instruction the
submission enters Loading; with a missing base image it enters Failed
with the missing-input message and does not start the call. -/
theorem submission_guard_transitions_witness :
    (workflowState (handleGenerateStart
        ⟨some ⟨⟨3, "image/png", "BBB"⟩, "data:image/png;base64,BBB"⟩,
         some ⟨⟨2, "image/jpeg", "LLL"⟩, "data:image/jpeg;base64,LLL"⟩,
         "put the logo on the shirt", none, false, none⟩).1
      = WorkflowState.Loading) ∧
    (workflowState (handleGenerateStart
        ⟨none, none, "put the logo on the shirt", none, false, none⟩).1
      = WorkflowState.Failed missingInputMessage) :=
  ⟨((submission_guard_transitions
      ⟨some ⟨⟨3, "image/png", "BBB"⟩, "data:image/png;base64,BBB"⟩,
       some ⟨⟨2, "image/jpeg", "LLL"⟩, "data:image/jpeg;base64,LLL"⟩,
       "put the logo on the shirt", none, false, none⟩ rfl).1
      (by exact ⟨by decide, by decide, by decide⟩)).1,
   ((submission_guard_transitions
      ⟨none, none, "put the logo on the shirt", none, false, none⟩ rfl).2
      (Or.inl rfl)).1⟩

/-- C7: while the controller is Loading, a submission attempt through the
UI leaves the state unchanged and does not invoke the Edit Request
Client, because the Generate button is disabled while `isLoading`. -/
theorem submit_noop_while_loading
    (remote : List RequestPart → RemoteOutcome) (s : AppState)
    (h : s.isLoading = true) :
    submitAttempt remote s = (s, false) := by
  simp [submitAttempt, generateButtonDisabled, h]

/-- C7 witness: a loading state with both images present is left exactly
as it is by a second submission attempt. -/
theorem submit_noop_while_loading_witness :
    submitAttempt (fun _ => RemoteOutcome.failure (JsValue.str ""))
      ⟨some ⟨⟨3, "image/png", "BBB"⟩, "data:image/png;base64,BBB"⟩,
       some ⟨⟨2, "image/jpeg", "LLL"⟩, "data:image/jpeg;base64,LLL"⟩,
       "put the logo on the shirt", none, true, none⟩
    = (⟨some ⟨⟨3, "image/png", "BBB"⟩, "data:image/png;base64,BBB"⟩,
        some ⟨⟨2, "image/jpeg", "LLL"⟩, "data:image/jpeg;base64,LLL"⟩,
        "put the logo on the shirt", none, true, none⟩, false) :=
  submit_noop_while_loading (fun _ => RemoteOutcome.failure (JsValue.str ""))
    ⟨some ⟨⟨3, "image/png", "BBB"⟩, "data:image/png;base64,BBB"⟩,
     some ⟨⟨2, "image/jpeg", "LLL"⟩, "data:image/jpeg;base64,LLL"⟩,
     "put the logo on the shirt", none, true, none⟩ rfl

/-- C6 counterexample: a 5,000,000-byte dropped file declared as
`text/plain` is over the size limit, yet the drag-and-drop path does not
reject it with the oversize alert — it falls through silently. -/
theorem oversize_nonimage_drop_cex :
    5000000 > sizeLimit ∧
    handleDrop (some ⟨5000000, "text/plain", "c"⟩)
      ≠ IntakeOutcome.oversizeAlert ∧
    handleDrop (some ⟨5000000, "text/plain", "c"⟩) = IntakeOutcome.ignored := by
  decide

/-- C6 (amended): every candidate whose declared size exceeds 4 MiB is
turned away by both intake paths without its content being read, without
a preview, and with the current selection left unchanged; the file-dialog
path always signals the oversize alert, while the drag-and-drop path
signals it only for candidates whose declared type starts with "image/"
and silently ignores the rest. -/
theorem oversize_rejected_both_paths (f : FileInfo) (slot : Option ImageFile)
    (h : f.size > sizeLimit) :
    handleFileChange (some f) = IntakeOutcome.oversizeAlert ∧
    (strStartsWith f.type "image/" = true →
      handleDrop (some f) = IntakeOutcome.oversizeAlert) ∧
    (strStartsWith f.type "image/" = false →
      handleDrop (some f) = IntakeOutcome.ignored) ∧
    intakeReadsFile (handleFileChange (some f)) = false ∧
    intakeReadsFile (handleDrop (some f)) = false ∧
    applyIntake (handleFileChange (some f)) f slot = slot ∧
    applyIntake (handleDrop (some f)) f slot = slot := by
  have hfc : handleFileChange (some f) = IntakeOutcome.oversizeAlert := by
    simp [handleFileChange, h]
  have hdrop : handleDrop (some f) = IntakeOutcome.oversizeAlert ∨
      handleDrop (some f) = IntakeOutcome.ignored := by
    by_cases hst : strStartsWith f.type "image/"
    · exact Or.inl (by simp [handleDrop, hst, h])
    · exact Or.inr (by simp [handleDrop, hst])
  refine ⟨hfc, ?_, ?_, ?_, ?_, ?_, ?_⟩
  · intro hst
    simp [handleDrop, hst, h]
  · intro hst
    simp [handleDrop, hst]
  · simp [hfc, intakeReadsFile]
  · rcases hdrop with hd | hd <;> simp [hd, intakeReadsFile]
  · simp [hfc, applyIntake]
  · rcases hdrop with hd | hd <;> simp [hd, applyIntake]

/-- C6 witness: a 4 MiB + 1 byte PNG is rejected with the oversize alert
on both paths, nothing is read, and an empty selection stays empty. -/
theorem oversize_rejected_both_paths_witness :
    handleFileChange (some ⟨4194305, "image/png", "x"⟩)
      = IntakeOutcome.oversizeAlert ∧
    (strStartsWith "image/png" "image/" = true →
      handleDrop (some ⟨4194305, "image/png", "x"⟩)
        = IntakeOutcome.oversizeAlert) ∧
    (strStartsWith "image/png" "image/" = false →
      handleDrop (some ⟨4194305, "image/png", "x"⟩) = IntakeOutcome.ignored) ∧
    intakeReadsFile (handleFileChange (some ⟨4194305, "image/png", "x"⟩))
      = false ∧
    intakeReadsFile (handleDrop (some ⟨4194305, "image/png", "x"⟩)) = false ∧
    applyIntake (handleFileChange (some ⟨4194305, "image/png", "x"⟩))
      ⟨4194305, "image/png", "x"⟩ none = none ∧
    applyIntake (handleDrop (some ⟨4194305, "image/png", "x"⟩))
      ⟨4194305, "image/png", "x"⟩ none = none :=
  oversize_rejected_both_paths ⟨4194305, "image/png", "x"⟩ none (by decide)

/-- C8: the file dialog's filter admits exactly PNG, JPEG and WEBP, the
drag-and-drop path accepts exactly the files whose declared type starts
with "image/" and whose size is within the limit, and in particular a GIF
is accepted by drag-and-drop though the dialog filter excludes it. -/
theorem intake_policy_asymmetry :
    (∀ t : String, pickerFilterAllows t = true ↔
      (t = "image/png" ∨ t = "image/jpeg" ∨ t = "image/webp")) ∧
    (∀ f : FileInfo, handleDrop (some f) = IntakeOutcome.accepted ↔
      (strStartsWith f.type "image/" = true ∧ f.size ≤ sizeLimit)) ∧
    handleDrop (some ⟨100, "image/gif", "g"⟩) = IntakeOutcome.accepted ∧
    pickerFilterAllows "image/gif" = false := by
  refine ⟨?_, ?_, by decide, by decide⟩
  · intro t
    simp [pickerFilterAllows, acceptAttributeTypes]
  · intro f
    constructor
    · intro h
      by_cases hst : strStartsWith f.type "image/"
      · by_cases hsz : f.size > sizeLimit
        · simp [handleDrop, hst, hsz] at h
        · exact ⟨hst, Nat.le_of_not_lt hsz⟩
      · simp [handleDrop, hst] at h
    · rintro ⟨hst, hsz⟩
      simp [handleDrop, hst, Nat.not_lt.mpr hsz]

/-- C8 witness: the GIF conjunct of the asymmetry theorem, read off
directly. -/
theorem intake_policy_asymmetry_witness :
    handleDrop (some ⟨100, "image/gif", "g"⟩) = IntakeOutcome.accepted ∧
    pickerFilterAllows "image/gif" = false :=
  ⟨intake_policy_asymmetry.2.2.1, intake_policy_asymmetry.2.2.2⟩

/-- C9: replacing or removing either image changes only that image slot;
the loading flag, the error message, the previous result, the other slot
and the prompt — and hence the derived workflow state — are untouched. -/
theorem image_slot_update_frame (v : Option ImageFile) (s : AppState) :
    (setBaseImage v s).isLoading = s.isLoading ∧
    (setBaseImage v s).error = s.error ∧
    (setBaseImage v s).generatedImage = s.generatedImage ∧
    (setBaseImage v s).logoImage = s.logoImage ∧
    (setBaseImage v s).prompt = s.prompt ∧
    workflowState (setBaseImage v s) = workflowState s ∧
    (setLogoImage v s).isLoading = s.isLoading ∧
    (setLogoImage v s).error = s.error ∧
    (setLogoImage v s).generatedImage = s.generatedImage ∧
    (setLogoImage v s).baseImage = s.baseImage ∧
    (setLogoImage v s).prompt = s.prompt ∧
    workflowState (setLogoImage v s) = workflowState s :=
  ⟨rfl, rfl, rfl, rfl, rfl, rfl, rfl, rfl, rfl, rfl, rfl, rfl⟩

/-- C10: every rejection of `generateEditedImage` carries a plain string
— never an `Error` instance — so the controller's `instanceof Error`
test is false on it and the stored message is `String(err)`, the string
itself. -/
theorem rejections_are_strings (remote : List RequestPart → RemoteOutcome)
    (p : GenerateImageParams) (s : AppState) (v : JsValue)
    (h : generateEditedImage remote p = Except.error v) :
    (∃ m : String, v = JsValue.str m) ∧
    isErrorInstance v = false ∧
    (handleGenerateResolve s (Except.error v)).error = some (jsToString v) := by
  have hv : ∃ m : String, v = JsValue.str m := by
    unfold generateEditedImage at h
    cases ho : remote (requestParts p) with
    | failure e =>
      rw [ho] at h
      cases e with
      | str s2 =>
        simp [processOutcome, catchToRejection, isErrorInstance] at h
        exact ⟨unknownErrorMessage, h.symm⟩
      | errObj m =>
        simp [processOutcome, catchToRejection, isErrorInstance,
          errorMessage] at h
        exact ⟨m, h.symm⟩
    | success r =>
      rw [ho] at h
      cases hf : findInlineData (responseParts r) with
      | some d =>
        simp [processOutcome, hf] at h
      | none =>
        simp [processOutcome, hf, catchToRejection, isErrorInstance,
          errorMessage] at h
        exact ⟨noImageMessage, h.symm⟩
  obtain ⟨m, rfl⟩ := hv
  refine ⟨⟨m, rfl⟩, rfl, ?_⟩
  simp [handleGenerateResolve, isErrorInstance, jsToString]

/-- C10 witness: a remote throw of an `Error` object with message "boom"
rejects as the plain string "boom", on which the `instanceof Error` test
fails and the stored message is the string itself. -/
theorem rejections_are_strings_witness :
    (∃ m : String, JsValue.str "boom" = JsValue.str m) ∧
    isErrorInstance (JsValue.str "boom") = false ∧
    (handleGenerateResolve ⟨none, none, "p", none, true, none⟩
        (Except.error (JsValue.str "boom"))).error
      = some (jsToString (JsValue.str "boom")) :=
  rejections_are_strings
    (fun _ => RemoteOutcome.failure (JsValue.errObj "boom"))
    ⟨⟨"b", "image/png"⟩, ⟨"l", "image/png"⟩, "x"⟩
    ⟨none, none, "p", none, true, none⟩ (JsValue.str "boom") rfl
